import Mathlib

/-!
Verification of the picoWeatherAPI core against its specification.

This file shallowly embeds the request-processing core of the
picoWeatherAPI C server: the field-bitmask enumerations and the
granularity type (src/core/flags.h), the SQL query composer
(`build_static_query`, `build_generic_weather_query`,
`string_to_granularity`, `same_timezone_offset_during_range` in
src/utils/utils.c), the validators (`validate_name`, `validate_email`,
`validate_timestamp`, `validate_session_token` in src/utils/utils.c),
the connection pool (src/database/database.c), and the service
operations `sessions_create`, `users_patch` and the timezone-setting
prologue of `weather_data_list` (src/core/weather.c).

Pure C functions become Lean functions; the database becomes an explicit
relational state (`DBState`) and each service operation a state-passing
function; the connection pool becomes an explicit busy counter; the
outcomes of external calls that the embedded control flow branches on
(libpq statement results, password verification) become boolean
parameters.  Library routines whose semantics the code relies on are
embedded from their documented behaviour: `sodium_base642bin`
(URL-safe no-padding base64, strict trailing-bit check, whole-string
consumption) and glibc `strptime` for the fixed format
`%Y-%m-%dT%H:%M:%S` (leading-whitespace skip and greedy bounded numeric
fields, per `get_number` in glibc `strptime_l.c`).  The cryptographic
hash is kept abstract as a function parameter.
-/

set_option maxRecDepth 4000

namespace PicoWeather

/-! ## Error codes and flag enumerations (src/core/weather.h, flags.h) -/

inductive apiError_t where
  | API_OK
  | API_INVALID_PARAMS
  | API_AUTH_ERROR
  | API_NOT_FOUND
  | API_DB_ERROR
  | API_FORBIDDEN
  | API_MEMORY_ERROR
  | API_JSON_ERROR
deriving DecidableEq

open apiError_t

inductive granularity_t where
  | GRANULARITY_DATA
  | GRANULARITY_HOUR
  | GRANULARITY_DAY
  | GRANULARITY_MONTH
  | GRANULARITY_YEAR
deriving DecidableEq

open granularity_t

def DATA_TEMP : Nat := 1 <<< 0
def DATA_HUMIDITY : Nat := 1 <<< 1
def DATA_PRESSURE : Nat := 1 <<< 2
def DATA_LUX : Nat := 1 <<< 3
def DATA_UVI : Nat := 1 <<< 4
def DATA_WIND_SPEED : Nat := 1 <<< 5
def DATA_WIND_DIRECTION : Nat := 1 <<< 6
def DATA_GUST_SPEED : Nat := 1 <<< 7
def DATA_GUST_DIRECTION : Nat := 1 <<< 8
def DATA_RAINFALL : Nat := 1 <<< 9
def DATA_SOLAR_IRRADIANCE : Nat := 1 <<< 10

def SUMMARY_AVG_TEMPERATURE : Nat := 1 <<< 0
def SUMMARY_MAX_TEMPERATURE : Nat := 1 <<< 1
def SUMMARY_MIN_TEMPERATURE : Nat := 1 <<< 2
def SUMMARY_STDDEV_TEMPERATURE : Nat := 1 <<< 3
def SUMMARY_AVG_HUMIDITY : Nat := 1 <<< 4
def SUMMARY_MAX_HUMIDITY : Nat := 1 <<< 5
def SUMMARY_MIN_HUMIDITY : Nat := 1 <<< 6
def SUMMARY_STDDEV_HUMIDITY : Nat := 1 <<< 7
def SUMMARY_AVG_PRESSURE : Nat := 1 <<< 8
def SUMMARY_MAX_PRESSURE : Nat := 1 <<< 9
def SUMMARY_MIN_PRESSURE : Nat := 1 <<< 10
def SUMMARY_SUM_RAINFALL : Nat := 1 <<< 11
def SUMMARY_STDDEV_RAINFALL : Nat := 1 <<< 12
def SUMMARY_AVG_WIND_SPEED : Nat := 1 <<< 13
def SUMMARY_AVG_WIND_DIRECTION : Nat := 1 <<< 14
def SUMMARY_STDDEV_WIND_SPEED : Nat := 1 <<< 15
def SUMMARY_WIND_RUN : Nat := 1 <<< 16
def SUMMARY_MAX_GUST_SPEED : Nat := 1 <<< 17
def SUMMARY_MAX_GUST_DIRECTION : Nat := 1 <<< 18
def SUMMARY_AVG_LUX : Nat := 1 <<< 19
def SUMMARY_MAX_LUX : Nat := 1 <<< 20
def SUMMARY_AVG_UVI : Nat := 1 <<< 21
def SUMMARY_MAX_UVI : Nat := 1 <<< 22
def SUMMARY_AVG_SOLAR_IRRADIANCE : Nat := 1 <<< 23

def DEFAULT_TIMEZONE : String := "Europe/Madrid"

/-! ## string_to_granularity (src/utils/utils.c:640)

The C function receives a possibly-NULL `const char *`; a NULL pointer is
modelled as `none`. -/

def string_to_granularity (granularityStr : Option String) : granularity_t :=
  match granularityStr with
  | none => GRANULARITY_HOUR
  | some s =>
    if s = "raw" then GRANULARITY_DATA
    else if s = "hour" then GRANULARITY_HOUR
    else if s = "day" then GRANULARITY_DAY
    else if s = "month" then GRANULARITY_MONTH
    else if s = "year" then GRANULARITY_YEAR
    else GRANULARITY_HOUR

/-- `weather_data_list` (src/core/weather.c:773) rejects a NULL granularity
string with `API_INVALID_PARAMS` before converting; any non-NULL string is
converted by `string_to_granularity`.  This is the granularity the rest of
`weather_data_list` operates with. -/
def weather_data_list_granularity (granularityStr : Option String) :
    Option granularity_t :=
  match granularityStr with
  | none => none
  | some s => some (string_to_granularity (some s))

/-! ## The query composer (src/utils/utils.c:390 and 517)

Both builders write into a 4096-byte buffer through `append_to_buffer`
(a bounds-checked `vsnprintf`); a failed append frees the buffer and
returns NULL, which the embedding models as `none`.  Appends fail
exactly when the final string would not fit in the buffer together with
its terminating NUL, so the embedding builds the full string and
compares its length against the buffer size.  The single-quote character
of the SQL literals is assembled via `Char.ofNat 39`. -/

def GENERIC_WEATHER_QUERY_SIZE : Nat := 4096

def sq : String := String.mk [Char.ofNat 39]

/-- One `WHEN <g> THEN interval <1 g>` arm of the CASE blocks in the
generic query's CTE, at the given indentation. -/
def caseArm (ind g : String) : String :=
  ind ++ "WHEN " ++ sq ++ g ++ sq ++ " THEN interval " ++ sq ++ "1 " ++ g ++ sq ++ "\n"

/-- The fixed head of `build_generic_weather_query` (`queryBase`,
src/utils/utils.c:391). -/
def generic_query_base : String :=
  "WITH params AS (\n" ++
  "    SELECT\n" ++
  "        (SELECT station_id FROM stations.stations WHERE name = $1 OR uuid::text = $1) AS station_id,\n" ++
  "        $2::timestamp AS start_ts,\n" ++
  "        $3::timestamp AS end_ts,\n" ++
  "        $4::text AS granularity\n" ++
  "),\n" ++
  "time_ranges AS (\n" ++
  "    SELECT\n" ++
  "        station_id,\n" ++
  "        granularity,\n" ++
  "        tstzrange(\n" ++
  "            ts,\n" ++
  "            ts + (\n" ++
  "                CASE granularity\n" ++
  caseArm "                    " "hour" ++
  caseArm "                    " "day" ++
  caseArm "                    " "week" ++
  caseArm "                    " "month" ++
  caseArm "                    " "year" ++
  "                END\n" ++
  "            )\n" ++
  "        ) AS time_range\n" ++
  "    FROM params,\n" ++
  "    generate_series(\n" ++
  "        date_trunc(granularity, start_ts),\n" ++
  "        date_trunc(granularity, end_ts),\n" ++
  "        CASE granularity\n" ++
  caseArm "            " "hour" ++
  caseArm "            " "day" ++
  caseArm "            " "week" ++
  caseArm "            " "month" ++
  caseArm "            " "year" ++
  "        END\n" ++
  "    ) AS ts\n" ++
  ")\n" ++
  "SELECT " ++
  "lower(d.time_range) AS period_start, " ++
  "upper(d.time_range) AS period_end, " ++
  "d.granularity, "

/-- The fixed tail of `build_generic_weather_query` (`queryEnd`,
src/utils/utils.c:432). -/
def generic_query_end : String :=
  " FROM time_ranges d\n" ++
  "LEFT JOIN weather.weather_data wd\n" ++
  "   ON wd.station_id = d.station_id\n" ++
  "   AND wd.time_range && d.time_range\n" ++
  "GROUP BY d.station_id, d.time_range, d.granularity\n" ++
  "ORDER BY d.time_range;"

/-- The `(FIELD_FLAG, SQL_EXPR)` pairs of `build_generic_weather_query`
in the order of its `APPEND_QUERY_FIELD` invocations
(src/utils/utils.c:452-500). -/
def genericFieldTable : List (Nat × String) :=
  [(SUMMARY_AVG_TEMPERATURE, " AVG(wd.temperature) AS avg_temperature,"),
   (SUMMARY_MAX_TEMPERATURE, " MAX(wd.temperature) AS max_temperature,"),
   (SUMMARY_MIN_TEMPERATURE, " MIN(wd.temperature) AS min_temperature,"),
   (SUMMARY_STDDEV_TEMPERATURE, " STDDEV(wd.temperature) AS stddev_temperature,"),
   (SUMMARY_AVG_HUMIDITY, " AVG(wd.humidity) AS avg_humidity,"),
   (SUMMARY_MAX_HUMIDITY, " MAX(wd.humidity) AS max_humidity,"),
   (SUMMARY_MIN_HUMIDITY, " MIN(wd.humidity) AS min_humidity,"),
   (SUMMARY_STDDEV_HUMIDITY, " STDDEV(wd.humidity) AS stddev_humidity,"),
   (SUMMARY_AVG_PRESSURE, " AVG(wd.pressure) AS avg_pressure,"),
   (SUMMARY_MAX_PRESSURE, " MAX(wd.pressure) AS max_pressure,"),
   (SUMMARY_MIN_PRESSURE, " MIN(wd.pressure) AS min_pressure,"),
   (SUMMARY_SUM_RAINFALL, " SUM(wd.rainfall) AS sum_rainfall,"),
   (SUMMARY_STDDEV_RAINFALL, " STDDEV(wd.rainfall) AS stddev_rainfall,"),
   (SUMMARY_AVG_WIND_SPEED, " AVG(wd.wind_speed) AS avg_wind_speed,"),
   (SUMMARY_AVG_WIND_DIRECTION,
    " MOD( " ++
    " CAST(DEGREES( " ++
    "   ATAN2( " ++
    "     SUM(CAST(wd.wind_speed AS numeric) * " ++
    "SIN(RADIANS(CAST(wd.wind_direction AS numeric)))), " ++
    "     SUM(CAST(wd.wind_speed AS numeric) * " ++
    "COS(RADIANS(CAST(wd.wind_direction AS numeric)))) " ++
    "   ) " ++
    " ) AS numeric) + 360, 360 " ++
    ") AS avg_wind_direction,"),
   (SUMMARY_STDDEV_WIND_SPEED, " STDDEV(wd.wind_speed) AS stddev_wind_speed,"),
   (SUMMARY_WIND_RUN,
    " SUM(wd.wind_speed * EXTRACT(EPOCH FROM (upper(wd.time_range) - " ++
    "lower(wd.time_range)))) AS wind_run,"),
   (SUMMARY_MAX_GUST_SPEED, " MAX(wd.gust_speed) AS max_gust_speed,"),
   (SUMMARY_MAX_GUST_DIRECTION,
    " (SELECT wd2.gust_direction FROM weather.weather_data wd2 WHERE " ++
    "wd2.station_id = d.station_id AND wd2.time_range && d.time_range ORDER " ++
    "BY wd2.gust_speed DESC LIMIT 1) AS max_gust_direction,"),
   (SUMMARY_MAX_LUX, " MAX(wd.lux) AS max_lux,"),
   (SUMMARY_AVG_LUX, " AVG(wd.lux) AS avg_lux,"),
   (SUMMARY_MAX_UVI, " MAX(wd.uvi) AS max_uvi,"),
   (SUMMARY_AVG_UVI, " AVG(wd.uvi) AS avg_uvi,"),
   (SUMMARY_AVG_SOLAR_IRRADIANCE, " AVG(wd.solar_irradiance) AS avg_solar_irradiance,")]

/-- The fixed head of `build_static_query` (`queryBase`,
src/utils/utils.c:518). -/
def static_query_base : String :=
  "SELECT\n" ++
  "lower(time_range) AS period_start,\n" ++
  "upper(time_range) AS period_end,\n"

/-- The granularity-specific tail of `build_static_query`
(src/utils/utils.c:524-551).  All five enumerators are covered, so the
NULL `queryEnd` of the unreachable `else` branch has no counterpart. -/
def static_query_end (granularity : granularity_t) : String :=
  (match granularity with
   | GRANULARITY_DATA => " FROM weather.weather_data\n"
   | GRANULARITY_HOUR => " FROM weather.weather_hourly_summary\n"
   | GRANULARITY_DAY => " FROM weather.weather_daily_summary\n"
   | GRANULARITY_MONTH => " FROM weather.weather_monthly_summary\n"
   | GRANULARITY_YEAR => " FROM weather.weather_yearly_summary\n") ++
  "WHERE station_id = (SELECT station_id FROM stations.stations WHERE name = $1 OR uuid::text = $1)\n" ++
  "    AND time_range && tstzrange($2, $3)\n" ++
  "ORDER BY lower(time_range);"

/-- The `(FIELD_FLAG, SQL_EXPR)` pairs of `build_static_query` in the
order of its `APPEND_QUERY_FIELD` invocations, with each guard of the
surrounding `if` blocks reproduced (src/utils/utils.c:566-623). -/
def staticFieldTable (granularity : granularity_t) : List (Nat × String) :=
  (if granularity = GRANULARITY_DATA then
    [(DATA_TEMP, " temperature,"),
     (DATA_HUMIDITY, " humidity,"),
     (DATA_PRESSURE, " pressure,"),
     (DATA_LUX, " lux,"),
     (DATA_UVI, " uvi,"),
     (DATA_WIND_SPEED, " wind_speed,"),
     (DATA_WIND_DIRECTION, " wind_direction,"),
     (DATA_GUST_SPEED, " gust_speed,"),
     (DATA_GUST_DIRECTION, " gust_direction,"),
     (DATA_RAINFALL, " rainfall,"),
     (DATA_SOLAR_IRRADIANCE, " solar_irradiance,")]
   else []) ++
  (if granularity ≠ GRANULARITY_DATA then
    [(SUMMARY_AVG_TEMPERATURE, " avg_temperature,"),
     (SUMMARY_AVG_HUMIDITY, " avg_humidity,"),
     (SUMMARY_AVG_PRESSURE, " avg_pressure,"),
     (SUMMARY_SUM_RAINFALL, " sum_rainfall,"),
     (SUMMARY_STDDEV_RAINFALL, " stddev_rainfall,"),
     (SUMMARY_AVG_WIND_SPEED, " avg_wind_speed,"),
     (SUMMARY_AVG_WIND_DIRECTION, " avg_wind_direction,"),
     (SUMMARY_STDDEV_WIND_SPEED, " stddev_wind_speed,"),
     (SUMMARY_MAX_GUST_SPEED, " max_gust_speed,"),
     (SUMMARY_MAX_GUST_DIRECTION, " max_gust_direction,"),
     (SUMMARY_AVG_LUX, " avg_lux,"),
     (SUMMARY_AVG_UVI, " avg_uvi,"),
     (SUMMARY_AVG_SOLAR_IRRADIANCE, " avg_solar_irradiance,")]
   else []) ++
  (if granularity = GRANULARITY_DAY then [(SUMMARY_WIND_RUN, " wind_run,")] else []) ++
  (if granularity = GRANULARITY_DAY ∨ granularity = GRANULARITY_MONTH ∨
      granularity = GRANULARITY_YEAR then
    [(SUMMARY_MAX_TEMPERATURE, " max_temperature,"),
     (SUMMARY_MIN_TEMPERATURE, " min_temperature,"),
     (SUMMARY_STDDEV_TEMPERATURE, " stddev_temperature,"),
     (SUMMARY_MAX_HUMIDITY, " max_humidity,"),
     (SUMMARY_MIN_HUMIDITY, " min_humidity,"),
     (SUMMARY_STDDEV_HUMIDITY, " stddev_humidity,"),
     (SUMMARY_MAX_PRESSURE, " max_pressure,"),
     (SUMMARY_MIN_PRESSURE, " min_pressure,"),
     (SUMMARY_MAX_LUX, " max_lux,"),
     (SUMMARY_MAX_UVI, " max_uvi,"),
     (SUMMARY_AVG_SOLAR_IRRADIANCE, " avg_solar_irradiance,")]
   else [])

/-- Concatenation of the appended fragments, in append order. -/
def concatAll : List String → String
  | [] => ""
  | s :: rest => s ++ concatAll rest

/-- The fragments a run of `APPEND_QUERY_FIELD` over `table` appends for
the bitmask `fields`: those table entries whose flag is set, in table
order. -/
def selectedFrags (fields : Nat) (table : List (Nat × String)) : List String :=
  table.filterMap (fun p => if fields &&& p.1 != 0 then some p.2 else none)

/-- The trailing-comma cleanup both builders run before appending the
query suffix (`if (p > query && *(p - 1) == ',') ...`,
src/utils/utils.c:502 and 625). -/
def stripTrailingComma (s : String) : String :=
  if s.data.getLast? = some ',' then String.mk s.data.dropLast else s

/-- The buffer contents of `build_generic_weather_query` at the point
where `queryEnd` is appended. -/
def generic_query_body (fields : Nat) : String :=
  stripTrailingComma (generic_query_base ++ concatAll (selectedFrags fields genericFieldTable))

def build_generic_weather_query (fields : Nat) : Option String :=
  let q := generic_query_body fields ++ generic_query_end
  if q.length < GENERIC_WEATHER_QUERY_SIZE then some q else none

/-- The buffer contents of `build_static_query` at the point where
`queryEnd` is appended. -/
def static_query_body (fields : Nat) (granularity : granularity_t) : String :=
  stripTrailingComma
    (static_query_base ++ concatAll (selectedFrags fields (staticFieldTable granularity)))

def build_static_query (fields : Nat) (granularity : granularity_t) : Option String :=
  let q := static_query_body fields granularity ++ static_query_end granularity
  if q.length < GENERIC_WEATHER_QUERY_SIZE then some q else none

/-! ## Shape of the appended fragments

Every `SQL_EXPR` handed to `APPEND_QUERY_FIELD` ends in exactly one
comma; the cleanup step therefore leaves no trailing comma behind. -/

/-- The fragment ends in a comma and that comma is not preceded by
another comma. -/
def fragShapeOk (f : String) : Bool :=
  match f.data.reverse with
  | c1 :: c2 :: _ => c1 == ',' && c2 != ','
  | _ => false

theorem exists_of_fragShapeOk (f : String) (h : fragShapeOk f = true) :
    ∃ u c, c ≠ ',' ∧ f.data = u ++ [c, ','] := by
  unfold fragShapeOk at h
  rcases hr : f.data.reverse with _ | ⟨c1, _ | ⟨c2, rest⟩⟩ <;> rw [hr] at h
  · exact absurd h (by simp)
  · exact absurd h (by simp)
  · simp only [Bool.and_eq_true, beq_iff_eq, bne_iff_ne, ne_eq] at h
    obtain ⟨h1, h2⟩ := h
    subst h1
    refine ⟨rest.reverse, c2, h2, ?_⟩
    rw [← List.reverse_reverse f.data, hr]
    simp [List.reverse_cons, List.append_assoc]

theorem stripTrailingComma_of_ne (s : String) (h : s.data.getLast? ≠ some ',') :
    stripTrailingComma s = s := by
  unfold stripTrailingComma
  rw [if_neg h]

theorem stripTrailingComma_concat (s : String) : stripTrailingComma (s ++ ",") = s := by
  have hd : (s ++ ",").data = s.data ++ [','] := by
    rw [String.data_append]
  unfold stripTrailingComma
  rw [hd, List.getLast?_concat, if_pos rfl, List.dropLast_concat]

theorem strip_ok_of_data (s : String) (u : List Char) (c : Char) (hc : c ≠ ',')
    (h : s.data = u ++ [c, ',']) :
    (stripTrailingComma s).data.getLast? ≠ some ',' := by
  have h2 : s.data = (u ++ [c]) ++ [','] := by rw [h, List.append_assoc]; rfl
  have h1 : s.data.getLast? = some ',' := by rw [h2]; exact List.getLast?_concat _
  unfold stripTrailingComma
  rw [if_pos h1]
  show (s.data.dropLast).getLast? ≠ some ','
  rw [h2, List.dropLast_concat, List.getLast?_concat]
  intro hcc
  exact hc (Option.some.inj hcc)

theorem concatAll_append (l1 l2 : List String) :
    concatAll (l1 ++ l2) = concatAll l1 ++ concatAll l2 := by
  induction l1 with
  | nil =>
    show concatAll l2 = "" ++ concatAll l2
    apply String.ext
    rw [String.data_append]
    rfl
  | cons s rest ih =>
    show s ++ concatAll (rest ++ l2) = (s ++ concatAll rest) ++ concatAll l2
    rw [ih, String.append_assoc]

theorem strip_body_ok (base : String) (hb : base.data.getLast? ≠ some ',')
    (frags : List String) (hf : ∀ f ∈ frags, fragShapeOk f = true) :
    (stripTrailingComma (base ++ concatAll frags)).data.getLast? ≠ some ',' := by
  rcases List.eq_nil_or_concat frags with rfl | ⟨init, last, rfl⟩
  · rw [show concatAll ([] : List String) = "" from rfl, String.append_empty,
      stripTrailingComma_of_ne base hb]
    exact hb
  · have hlast : fragShapeOk last = true := hf last (by simp)
    obtain ⟨u, c, hc, hdata⟩ := exists_of_fragShapeOk last hlast
    apply strip_ok_of_data _ (base.data ++ ((concatAll init).data ++ u)) c hc
    rw [String.data_append, List.concat_eq_append, concatAll_append, String.data_append]
    have h1 : (concatAll [last]).data = last.data := by
      show (last ++ "").data = last.data
      rw [String.append_empty]
    rw [h1, hdata]
    simp [List.append_assoc]

theorem staticFieldTable_shape (g : granularity_t) :
    ∀ p ∈ staticFieldTable g, fragShapeOk p.2 = true := by
  cases g <;> decide

theorem genericFieldTable_shape :
    ∀ p ∈ genericFieldTable, fragShapeOk p.2 = true := by
  decide

theorem selectedFrags_shape (fields : Nat) (table : List (Nat × String))
    (ht : ∀ p ∈ table, fragShapeOk p.2 = true) :
    ∀ f ∈ selectedFrags fields table, fragShapeOk f = true := by
  intro f hf
  rw [selectedFrags, List.mem_filterMap] at hf
  obtain ⟨p, hp, hpe⟩ := hf
  by_cases hb : fields &&& p.1 != 0
  · rw [if_pos hb] at hpe
    obtain rfl : p.2 = f := Option.some.inj hpe
    exact ht p hp
  · rw [if_neg hb] at hpe
    exact absurd hpe (by simp)

theorem static_query_base_last : static_query_base.data.getLast? ≠ some ',' := by
  decide

theorem generic_query_base_last : generic_query_base.data.getLast? ≠ some ',' := by
  decide

/-- The buffer ends in a comma (the check the cleanup step performs). -/
def endsInComma (s : String) : Bool := s.data.getLast? == some ','

/-- C5: for every fields bitmask (the empty one included), the buffer to
which `build_static_query` and `build_generic_weather_query` attach
their query suffix does not end in a comma: the character immediately
before the attached `FROM` suffix is never a comma, because the cleanup
removed the trailing comma left by the last projected fragment. -/
theorem claim_C5_no_trailing_comma (fields : Nat) (g : granularity_t) :
    endsInComma (static_query_body fields g) = false ∧
    endsInComma (generic_query_body fields) = false := by
  constructor
  · have h := strip_body_ok static_query_base static_query_base_last
      (selectedFrags fields (staticFieldTable g))
      (selectedFrags_shape fields _ (staticFieldTable_shape g))
    simpa [endsInComma, static_query_body] using h
  · have h := strip_body_ok generic_query_base generic_query_base_last
      (selectedFrags fields genericFieldTable)
      (selectedFrags_shape fields _ genericFieldTable_shape)
    simpa [endsInComma, generic_query_body] using h

/-! ## Column projection of the static query (claim C3)

`staticNameTable` lists, per granularity, the projected column
expressions without the fragment comma; it is the enumeration the
projection claim speaks about, and `staticFieldTable` is proved to be
exactly this table with a comma appended to each fragment. -/

def staticNameTable (granularity : granularity_t) : List (Nat × String) :=
  (if granularity = GRANULARITY_DATA then
    [(DATA_TEMP, " temperature"),
     (DATA_HUMIDITY, " humidity"),
     (DATA_PRESSURE, " pressure"),
     (DATA_LUX, " lux"),
     (DATA_UVI, " uvi"),
     (DATA_WIND_SPEED, " wind_speed"),
     (DATA_WIND_DIRECTION, " wind_direction"),
     (DATA_GUST_SPEED, " gust_speed"),
     (DATA_GUST_DIRECTION, " gust_direction"),
     (DATA_RAINFALL, " rainfall"),
     (DATA_SOLAR_IRRADIANCE, " solar_irradiance")]
   else []) ++
  (if granularity ≠ GRANULARITY_DATA then
    [(SUMMARY_AVG_TEMPERATURE, " avg_temperature"),
     (SUMMARY_AVG_HUMIDITY, " avg_humidity"),
     (SUMMARY_AVG_PRESSURE, " avg_pressure"),
     (SUMMARY_SUM_RAINFALL, " sum_rainfall"),
     (SUMMARY_STDDEV_RAINFALL, " stddev_rainfall"),
     (SUMMARY_AVG_WIND_SPEED, " avg_wind_speed"),
     (SUMMARY_AVG_WIND_DIRECTION, " avg_wind_direction"),
     (SUMMARY_STDDEV_WIND_SPEED, " stddev_wind_speed"),
     (SUMMARY_MAX_GUST_SPEED, " max_gust_speed"),
     (SUMMARY_MAX_GUST_DIRECTION, " max_gust_direction"),
     (SUMMARY_AVG_LUX, " avg_lux"),
     (SUMMARY_AVG_UVI, " avg_uvi"),
     (SUMMARY_AVG_SOLAR_IRRADIANCE, " avg_solar_irradiance")]
   else []) ++
  (if granularity = GRANULARITY_DAY then [(SUMMARY_WIND_RUN, " wind_run")] else []) ++
  (if granularity = GRANULARITY_DAY ∨ granularity = GRANULARITY_MONTH ∨
      granularity = GRANULARITY_YEAR then
    [(SUMMARY_MAX_TEMPERATURE, " max_temperature"),
     (SUMMARY_MIN_TEMPERATURE, " min_temperature"),
     (SUMMARY_STDDEV_TEMPERATURE, " stddev_temperature"),
     (SUMMARY_MAX_HUMIDITY, " max_humidity"),
     (SUMMARY_MIN_HUMIDITY, " min_humidity"),
     (SUMMARY_STDDEV_HUMIDITY, " stddev_humidity"),
     (SUMMARY_MAX_PRESSURE, " max_pressure"),
     (SUMMARY_MIN_PRESSURE, " min_pressure"),
     (SUMMARY_MAX_LUX, " max_lux"),
     (SUMMARY_MAX_UVI, " max_uvi"),
     (SUMMARY_AVG_SOLAR_IRRADIANCE, " avg_solar_irradiance")]
   else [])

theorem staticFieldTable_eq (g : granularity_t) :
    staticFieldTable g = (staticNameTable g).map (fun p => (p.1, p.2 ++ ",")) := by
  cases g <;> decide

/-- The column expressions `build_static_query` projects for the given
bitmask and granularity, in emission order. -/
def selectedCols (fields : Nat) (granularity : granularity_t) : List String :=
  (staticNameTable granularity).filterMap
    (fun p => if fields &&& p.1 != 0 then some p.2 else none)

/-- Comma-separated rendering of a column list. -/
def commaSeparated : List String → String
  | [] => ""
  | [c] => c
  | c :: rest => c ++ "," ++ commaSeparated rest

theorem filterMap_comma (fields : Nat) (l : List (Nat × String)) :
    (l.map (fun p => (p.1, p.2 ++ ","))).filterMap
        (fun p => if fields &&& p.1 != 0 then some p.2 else none)
      = (l.filterMap (fun p => if fields &&& p.1 != 0 then some p.2 else none)).map
        (fun s => s ++ ",") := by
  rw [List.filterMap_map, List.map_filterMap]
  congr 1
  funext p
  by_cases hb : fields &&& p.1 != 0 <;>
    simp only [bne_iff_ne, ne_eq, Bool.not_eq_true] at hb <;> simp [hb]

theorem concatAll_map_comma (c : String) (rest : List String) :
    concatAll ((c :: rest).map (fun s => s ++ ","))
      = commaSeparated (c :: rest) ++ "," := by
  induction rest generalizing c with
  | nil =>
    show (c ++ ",") ++ "" = c ++ ","
    rw [String.append_empty]
  | cons d rest ih =>
    have h1 : concatAll ((c :: d :: rest).map (fun s => s ++ ","))
        = (c ++ ",") ++ concatAll ((d :: rest).map (fun s => s ++ ",")) := rfl
    have h2 : commaSeparated (c :: d :: rest) = c ++ "," ++ commaSeparated (d :: rest) := rfl
    rw [h1, h2, ih d]
    simp [String.append_assoc]

theorem selectedFrags_static (fields : Nat) (g : granularity_t) :
    selectedFrags fields (staticFieldTable g)
      = (selectedCols fields g).map (fun s => s ++ ",") := by
  rw [selectedFrags, staticFieldTable_eq, filterMap_comma]
  rfl

theorem static_body_projection (fields : Nat) (g : granularity_t) :
    static_query_body fields g
      = static_query_base ++ commaSeparated (selectedCols fields g) := by
  unfold static_query_body
  rw [selectedFrags_static]
  cases hc : selectedCols fields g with
  | nil =>
    rw [show (([] : List String).map (fun s => s ++ ",")) = [] from rfl,
      show concatAll ([] : List String) = "" from rfl, String.append_empty,
      stripTrailingComma_of_ne _ static_query_base_last,
      show commaSeparated [] = "" from rfl, String.append_empty]
  | cons c rest =>
    rw [concatAll_map_comma, ← String.append_assoc]
    exact stripTrailingComma_concat _

/-- C3, counterexample: at hour granularity, setting only the
`SUMMARY_STDDEV_TEMPERATURE` bit (and likewise the
`SUMMARY_STDDEV_HUMIDITY` bit) produces exactly the query of the empty
bitmask: the standard-deviation aggregates for temperature and humidity
are NOT emitted at hour granularity even when their bits are set,
contrary to the claim. -/
theorem claim_C3_counterexample :
    build_static_query SUMMARY_STDDEV_TEMPERATURE GRANULARITY_HOUR
        = build_static_query 0 GRANULARITY_HOUR ∧
      build_static_query SUMMARY_STDDEV_HUMIDITY GRANULARITY_HOUR
        = build_static_query 0 GRANULARITY_HOUR ∧
      SUMMARY_STDDEV_TEMPERATURE ≠ 0 ∧ SUMMARY_STDDEV_HUMIDITY ≠ 0 := by
  refine ⟨by decide, by decide, by decide, by decide⟩

/-- C3, amended: after the fixed `period_start` and `period_end` columns,
`build_static_query` emits exactly the comma-separated column
expressions of the fixed per-granularity table (`staticNameTable`) whose
bits are set, in the fixed enumeration order; the hour-granularity table
contains no `stddev_temperature` or `stddev_humidity` entries (those
aggregates exist only for day, month and year granularities), so their
bits are ignored at hour granularity. -/
theorem claim_C3_amended :
    (∀ (fields : Nat) (g : granularity_t),
        static_query_body fields g
          = static_query_base ++ commaSeparated (selectedCols fields g)) ∧
      selectedCols SUMMARY_STDDEV_TEMPERATURE GRANULARITY_HOUR = [] ∧
      selectedCols SUMMARY_STDDEV_HUMIDITY GRANULARITY_HOUR = [] := by
  refine ⟨static_body_projection, by decide, by decide⟩

/-! ## Timezone equivalence and path selection (src/utils/utils.c:733,
src/core/weather.c:815)

`same_timezone_offset_during_range` walks the range in one-day steps and
compares, at each sampled instant, the total UTC offset (zone plus DST)
of the two zones, short-circuiting to true when the zone names are
equal.  The ICU offset computation is kept abstract as a total function
`offset : String → Int → Int` giving the total offset of a zone at an
instant (milliseconds since the epoch); the ICU-failure paths, which
return false before any comparison, are outside the embedding. -/

def dayMillis : Int := 24 * 3600 * 1000

/-- Number of iterations of the sampling loop `while (currentTime <= end)
... currentTime += 24*3600*1000`. -/
def sampleCount (start endT : Int) : Nat :=
  if endT < start then 0 else ((endT - start) / dayMillis).toNat + 1

def same_timezone_offset_during_range (offset : String → Int → Int)
    (start endT : Int) (tz1 tz2 : String) : Bool :=
  if tz1 == tz2 then true
  else
    (List.range (sampleCount start endT)).all
      (fun k => offset tz1 (start + k * dayMillis) == offset tz2 (start + k * dayMillis))

inductive QueryPath where
  | staticPath
  | dynamicPath
deriving DecidableEq

/-- The path decision of `weather_data_list` (src/core/weather.c:819-827):
the dynamic query is built iff `!sameTimezone && granularity !=
GRANULARITY_DATA`. -/
def weather_data_list_path (offset : String → Int → Int) (granularity : granularity_t)
    (startTime endTime : Int) (timezone : String) : QueryPath :=
  let sameTimezone :=
    same_timezone_offset_during_range offset startTime endTime timezone DEFAULT_TIMEZONE
  if sameTimezone = false ∧ granularity ≠ GRANULARITY_DATA then QueryPath.dynamicPath
  else QueryPath.staticPath

/-- The query string `weather_data_list` executes for the chosen path. -/
def weather_data_list_query (offset : String → Int → Int) (fields : Nat)
    (granularity : granularity_t) (startTime endTime : Int) (timezone : String) :
    Option String :=
  match weather_data_list_path offset granularity startTime endTime timezone with
  | QueryPath.dynamicPath => build_generic_weather_query fields
  | QueryPath.staticPath => build_static_query fields granularity

theorem mem_sample_iff (start endT : Int) (k : Nat) :
    k < sampleCount start endT ↔ start + k * dayMillis ≤ endT := by
  unfold sampleCount dayMillis
  by_cases h : endT < start
  · rw [if_pos h]
    omega
  · rw [if_neg h]
    omega

theorem same_tz_iff (offset : String → Int → Int) (start endT : Int) (tz1 tz2 : String) :
    same_timezone_offset_during_range offset start endT tz1 tz2 = true ↔
      ∀ k : Nat, start + k * dayMillis ≤ endT →
        offset tz1 (start + k * dayMillis) = offset tz2 (start + k * dayMillis) := by
  unfold same_timezone_offset_during_range
  by_cases heq : tz1 == tz2
  · rw [if_pos heq]
    have htz : tz1 = tz2 := eq_of_beq heq
    subst htz
    simp
  · rw [if_neg heq, List.all_eq_true]
    constructor
    · intro h k hk
      have hm := h k (List.mem_range.mpr ((mem_sample_iff start endT k).mpr hk))
      exact eq_of_beq hm
    · intro h k hk
      have hk2 := (mem_sample_iff start endT k).mp (List.mem_range.mp hk)
      exact beq_iff_eq.mpr (h k hk2)

/-- C4: `weather_data_list` selects the static path (querying the
pre-aggregated table matching the granularity via `build_static_query`)
if and only if the granularity is raw (`GRANULARITY_DATA`) or the
requested timezone has the same total UTC offset as the server default
`DEFAULT_TIMEZONE` at every one-day step across `[startTime, endTime]`;
in every other case it selects the dynamic path built by
`build_generic_weather_query`. -/
theorem claim_C4_path_selection (offset : String → Int → Int) (granularity : granularity_t)
    (startTime endTime : Int) (timezone : String) :
    weather_data_list_path offset granularity startTime endTime timezone
        = QueryPath.staticPath ↔
      (granularity = GRANULARITY_DATA ∨
        ∀ k : Nat, startTime + k * dayMillis ≤ endTime →
          offset timezone (startTime + k * dayMillis)
            = offset DEFAULT_TIMEZONE (startTime + k * dayMillis)) := by
  unfold weather_data_list_path
  by_cases hcond :
      same_timezone_offset_during_range offset startTime endTime timezone DEFAULT_TIMEZONE
          = false ∧ granularity ≠ GRANULARITY_DATA
  · rw [if_pos hcond]
    constructor
    · intro h
      exact absurd h (by simp)
    · intro h
      rcases h with h | h
      · exact absurd h hcond.2
      · have := (same_tz_iff offset startTime endTime timezone DEFAULT_TIMEZONE).mpr h
        rw [hcond.1] at this
        exact absurd this (by simp)
  · rw [if_neg hcond]
    constructor
    · intro _
      rcases Decidable.em (granularity = GRANULARITY_DATA) with hg | hg
      · exact Or.inl hg
      · have hb : ¬ same_timezone_offset_during_range offset startTime endTime timezone
            DEFAULT_TIMEZONE = false := fun hf => hcond ⟨hf, hg⟩
        have hb2 : same_timezone_offset_during_range offset startTime endTime timezone
            DEFAULT_TIMEZONE = true := by
          cases hx : same_timezone_offset_during_range offset startTime endTime timezone
              DEFAULT_TIMEZONE
          · exact absurd hx hb
          · rfl
        exact Or.inr ((same_tz_iff offset startTime endTime timezone DEFAULT_TIMEZONE).mp hb2)
    · intro _
      rfl

/-- C10: every granularity string other than `raw`, `hour`, `day`,
`month`, `year` — the NULL string included — is converted by
`string_to_granularity` to `GRANULARITY_HOUR`, and `weather_data_list`
proceeds with hourly aggregation for such an unrecognized (non-NULL)
value instead of rejecting the request. -/
theorem claim_C10_unknown_granularity_is_hour (s : String)
    (h1 : s ≠ "raw") (h2 : s ≠ "hour") (h3 : s ≠ "day") (h4 : s ≠ "month") (h5 : s ≠ "year") :
    string_to_granularity none = GRANULARITY_HOUR ∧
      string_to_granularity (some s) = GRANULARITY_HOUR ∧
      weather_data_list_granularity (some s) = some GRANULARITY_HOUR := by
  simp [string_to_granularity, weather_data_list_granularity, h1, h2, h3, h4, h5]

/-- Witness for C10 at the concrete unrecognized value `weekly`. -/
theorem claim_C10_unknown_granularity_is_hour_witness :
    string_to_granularity none = GRANULARITY_HOUR ∧
      string_to_granularity (some "weekly") = GRANULARITY_HOUR ∧
      weather_data_list_granularity (some "weekly") = some GRANULARITY_HOUR :=
  claim_C10_unknown_granularity_is_hour "weekly" (by decide) (by decide) (by decide)
    (by decide) (by decide)

/-! ## The timezone-quoting statement of weather_data_list (claim C1)

`weather_data_list` (src/core/weather.c:788-789) builds the quoting
statement with `snprintf(quoteQuery, sizeof(quoteQuery), "SELECT
quote_literal('%s');", timezone)`: the requested zone string is
interpolated directly between the single quotes, not bound as a
parameter.  `sqlQuotedLiteralOf` parses a statement of the intended
shape `SELECT quote_literal('<literal>');` back into the literal the SQL
engine would see, honouring the standard `''` escape; a statement whose
structure the interpolated string has broken fails to parse.  (The
256-byte `quoteQuery` buffer truncates longer statements; the embedding
covers the untruncated case, which all realistic zone names fall in.) -/

def sqChar : Char := Char.ofNat 39

def weather_data_list_quote_query (timezone : String) : String :=
  "SELECT quote_literal(" ++ sq ++ timezone ++ sq ++ ");"

/-- Parse the body of a single-quoted SQL literal: the opening quote has
been consumed; returns the literal content and the input remaining after
the closing quote.  `''` denotes an escaped single quote.  The fuel is
an upper bound on consumed characters. -/
def parseSqlQuoted (fuel : Nat) (cs : List Char) : Option (List Char × List Char) :=
  match fuel, cs with
  | _, [] => none
  | 0, _ :: _ => none
  | fuel + 1, c :: rest =>
    if c = sqChar then
      match rest with
      | [] => some ([], [])
      | c2 :: rest2 =>
        if c2 = sqChar then
          (parseSqlQuoted fuel rest2).map (fun p => (sqChar :: p.1, p.2))
        else some ([], rest)
    else (parseSqlQuoted fuel rest).map (fun p => (c :: p.1, p.2))

def stripLeadingChars : List Char → List Char → Option (List Char)
  | [], cs => some cs
  | _ :: _, [] => none
  | p :: ps, c :: cs => if c = p then stripLeadingChars ps cs else none

/-- The unique literal of a statement of the exact shape
`SELECT quote_literal('<literal>');`, if the statement has that shape. -/
def sqlQuotedLiteralOf (stmt : String) : Option String :=
  match stripLeadingChars ("SELECT quote_literal(" ++ sq).data stmt.data with
  | none => none
  | some rest =>
    match parseSqlQuoted rest.length rest with
    | none => none
    | some (content, rest2) =>
      if rest2 = [')', ';'] then some (String.mk content) else none

theorem stripLeadingChars_append (p cs : List Char) :
    stripLeadingChars p (p ++ cs) = some cs := by
  induction p with
  | nil => rfl
  | cons c rest ih =>
    show (if c = c then stripLeadingChars rest (rest ++ cs) else none) = some cs
    rw [if_pos rfl, ih]

theorem parseSqlQuoted_noquote (u : List Char) (hu : sqChar ∉ u) (c : Char) (hc : c ≠ sqChar)
    (rest : List Char) (fuel : Nat) (hf : u.length + 1 ≤ fuel) :
    parseSqlQuoted fuel (u ++ sqChar :: c :: rest) = some (u, c :: rest) := by
  induction u generalizing fuel with
  | nil =>
    obtain ⟨fuel2, rfl⟩ : ∃ f, fuel = f + 1 := ⟨fuel - 1, by omega⟩
    show parseSqlQuoted (fuel2 + 1) (sqChar :: c :: rest) = some ([], c :: rest)
    simp [parseSqlQuoted, hc]
  | cons d du ih =>
    have hd : d ≠ sqChar := fun h => hu (h ▸ List.mem_cons_self d du)
    have hdu : sqChar ∉ du := fun h => hu (List.mem_cons_of_mem d h)
    obtain ⟨fuel2, rfl⟩ : ∃ f, fuel = f + 1 := ⟨fuel - 1, by omega⟩
    have hlen : du.length + 1 ≤ fuel2 := by
      simp only [List.length_cons] at hf
      omega
    have hrec := ih hdu fuel2 hlen
    show parseSqlQuoted (fuel2 + 1) (d :: (du ++ sqChar :: c :: rest)) = some (d :: du, c :: rest)
    simp [parseSqlQuoted, hd, hrec]

/-- For zone strings free of single quotes, the constructed statement
parses back to exactly the zone literal — this is the safe case. -/
theorem quote_query_safe (tz : String) (h : sqChar ∉ tz.data) :
    sqlQuotedLiteralOf (weather_data_list_quote_query tz) = some tz := by
  unfold sqlQuotedLiteralOf weather_data_list_quote_query
  have hshape : ("SELECT quote_literal(" ++ sq ++ tz ++ sq ++ ");").data
      = ("SELECT quote_literal(" ++ sq).data ++ (tz.data ++ sqChar :: (')' :: [';'])) := by
    simp [String.data_append, sq, List.append_assoc, sqChar]
  rw [hshape, stripLeadingChars_append]
  have hparse := parseSqlQuoted_noquote tz.data h ')' (by decide) [';']
    (tz.length + 3) (by change tz.data.length + 1 ≤ tz.data.length + 3; omega)
  simp [hparse]

/-- C1, behaviour at the failing input: for the timezone `a'b` the
constructed statement is `SELECT quote_literal('a'b');` — the embedded
single quote terminates the SQL literal early and the statement no
longer has the single-literal shape the claim asserts for every zone
string, while a quote-free zone such as `Europe/Madrid` parses back
intact. -/
theorem claim_C1_quote_injection :
    weather_data_list_quote_query ("a" ++ sq ++ "b")
        = "SELECT quote_literal(" ++ sq ++ "a" ++ sq ++ "b" ++ sq ++ ");" ∧
      sqlQuotedLiteralOf (weather_data_list_quote_query ("a" ++ sq ++ "b")) = none ∧
      sqlQuotedLiteralOf (weather_data_list_quote_query "Europe/Madrid")
        = some "Europe/Madrid" := by
  refine ⟨by decide, by decide, by decide⟩

/-! ## The connection pool (src/database/database.c)

`MAX_CONN` is a compile-time constant; `init_pool` fills a fixed array
of `MAX_CONN` `(connection, busy)` pairs, returning failure as soon as a
connection cannot be created.  `connOk i` abstracts the success of the
i-th `init_db_conn` call. -/

def MAX_CONN : Nat := 10

structure ConnSlot where
  connId : Nat
  busy : Nat
deriving DecidableEq

def init_pool (connOk : Nat → Bool) : Option (List ConnSlot) :=
  if (List.range MAX_CONN).all connOk then
    some ((List.range MAX_CONN).map (fun i => { connId := i, busy := 0 }))
  else none

/-- Modelled from the spec: the pool-sizing policy the specification
describes — default the number of online processors, accept a positive
`MAX_DB_CONN` override, clamp a non-positive override to 1.  No code in
the repository reads `MAX_DB_CONN` or the processor count for the pool
(the only `sysconf(_SC_NPROCESSORS_ONLN)` call sizes the HTTP thread
pool in `main`); this definition exists to compare the specified policy
with the code's constant. -/
def pool_size_spec (onlineCPUs : Nat) (maxDbConn : Option Int) : Nat :=
  match maxDbConn with
  | none => onlineCPUs
  | some v => if v ≤ 0 then 1 else v.toNat

/-- C6, counterexample: with 4 online processors and no override the
specified size is 4, but the pool the code initialises always has
`MAX_CONN = 10` slots — the size depends on neither the processor count
nor any configuration variable. -/
theorem claim_C6_counterexample :
    pool_size_spec 4 none = 4 ∧
      (init_pool (fun _ => true)).map List.length = some MAX_CONN ∧
      MAX_CONN = 10 ∧ (4 : Nat) ≠ 10 := by
  refine ⟨rfl, by decide, rfl, by decide⟩

/-- C6, amended: the connection pool's size is the compile-time constant
`MAX_CONN = 10`; no configuration override exists, and every slot of a
successfully initialised pool starts free. -/
theorem claim_C6_pool_size (connOk : Nat → Bool) (pool : List ConnSlot)
    (h : init_pool connOk = some pool) :
    pool.length = 10 ∧ ∀ slot ∈ pool, slot.busy = 0 := by
  unfold init_pool at h
  by_cases hc : (List.range MAX_CONN).all connOk
  · rw [if_pos hc] at h
    obtain rfl : (List.range MAX_CONN).map (fun i => ({ connId := i, busy := 0 } : ConnSlot))
        = pool := Option.some.inj h
    constructor
    · simp [MAX_CONN]
    · intro slot hs
      simp only [List.mem_map] at hs
      obtain ⟨i, _, rfl⟩ := hs
      rfl
  · rw [if_neg hc] at h
    cases h

/-- Witness for the amended C6 theorem at the always-succeeding
connection oracle. -/
theorem claim_C6_pool_size_witness :
    ((List.range MAX_CONN).map (fun i => ({ connId := i, busy := 0 } : ConnSlot))).length = 10 ∧
      ∀ slot ∈ (List.range MAX_CONN).map (fun i => ({ connId := i, busy := 0 } : ConnSlot)),
        slot.busy = 0 :=
  claim_C6_pool_size (fun _ => true) _ rfl

/-! ## Busy-count model of acquire/release and sessions_create (claim C2)

For the pairing claim only the number of busy slots matters: `get_conn`
waits for a free slot and flips its flag (one more busy slot),
`release_conn` clears the flag of the released connection (one fewer).
`sessions_create` (src/core/weather.c:301-374) is embedded path by path;
the libpq/libsodium outcomes it branches on are boolean parameters.
`get_conn` cannot return NULL once the pool is initialised, so the
`!conn` guard is not a separate path. -/

structure PoolState where
  busy : Nat
deriving DecidableEq

def get_conn (p : PoolState) : PoolState := { busy := p.busy + 1 }

def release_conn (p : PoolState) : PoolState := { busy := p.busy - 1 }

/-- Control flow of `sessions_create`: parameter null-checks, `get_conn`,
`validate_password`, token insert, session re-select, JSON conversion —
with the pool state threaded through exactly as the C releases (or fails
to release) the borrowed connection. -/
def sessions_create (userIdGiven passwordGiven tokenBufGiven : Bool)
    (passwordOk insertOk selectOk : Bool) (selectRows : Nat) (jsonOk : Bool)
    (p : PoolState) : apiError_t × PoolState :=
  if ¬ (userIdGiven = true ∧ passwordGiven = true ∧ tokenBufGiven = true) then
    (API_AUTH_ERROR, p)
  else
    let p1 := get_conn p
    if passwordOk = false then (API_AUTH_ERROR, p1)
    else if insertOk = false then (API_DB_ERROR, p1)
    else if selectOk = false then (API_DB_ERROR, release_conn p1)
    else if selectRows = 0 then (API_NOT_FOUND, release_conn p1)
    else if jsonOk = false then (API_JSON_ERROR, release_conn p1)
    else (API_OK, release_conn p1)

/-- C2, behaviour at the failing inputs: on the password-failure path and
on the first-query-failure path `sessions_create` returns with the
borrowed connection still busy (busy count 1, was 0) — the connection is
leaked — while the success path does restore the busy count. -/
theorem claim_C2_sessions_create_leak :
    sessions_create true true true false true true 1 true { busy := 0 }
        = (API_AUTH_ERROR, { busy := 1 }) ∧
      sessions_create true true true true false true 1 true { busy := 0 }
        = (API_DB_ERROR, { busy := 1 }) ∧
      sessions_create true true true true true true 1 true { busy := 0 }
        = (API_OK, { busy := 0 }) := by
  refine ⟨by decide, by decide, by decide⟩

/-! ## URL-safe base64 decoding (libsodium `sodium_base642bin`)

`validate_session_token` decodes the presented token with
`sodium_base642bin(buf, KEY_ENTROPY, tok, len, NULL, NULL, NULL,
sodium_base64_VARIANT_URLSAFE_NO_PADDING)`.  With a NULL ignore set and
a NULL `b64_end`, sodium rejects any invalid character, rejects input
whose decoded bytes exceed the buffer, and after the loop rejects a
dangling 6-bit character or non-zero leftover bits.  Input decoding to
fewer than `KEY_ENTROPY` bytes is accepted; the C buffer's remaining
bytes then stay uninitialised (the `junk` parameter below). -/

def KEY_ENTROPY : Nat := 32

def b64UrlValue (c : Char) : Option Nat :=
  let n := c.toNat
  if 65 ≤ n ∧ n ≤ 90 then some (n - 65)
  else if 97 ≤ n ∧ n ≤ 122 then some (n - 97 + 26)
  else if 48 ≤ n ∧ n ≤ 57 then some (n - 48 + 52)
  else if n = 45 then some 62
  else if n = 95 then some 63
  else none

def b64DecodeGo (maxLen : Nat) : List Char → List Nat → Nat → Nat → Option (List Nat)
  | [], bytes, acc, accBits =>
    if accBits > 4 ∨ acc % 2 ^ accBits ≠ 0 then none else some bytes
  | c :: rest, bytes, acc, accBits =>
    match b64UrlValue c with
    | none => none
    | some d =>
      let acc2 := acc * 64 + d
      let accBits2 := accBits + 6
      if 8 ≤ accBits2 then
        if maxLen ≤ bytes.length then none
        else b64DecodeGo maxLen rest (bytes ++ [acc2 / 2 ^ (accBits2 - 8) % 256]) acc2 (accBits2 - 8)
      else b64DecodeGo maxLen rest bytes acc2 accBits2

def sodium_base642bin (maxLen : Nat) (s : String) : Option (List Nat) :=
  b64DecodeGo maxLen s.data [] 0 0

/-! ## Users, sessions and the session-token lookup (claims C7, C8)

The relational state carries the columns the embedded operations touch.
The cryptographic hash-and-encode step (`crypto_generichash` followed by
`sodium_bin2base64`) is abstract: `hashFn` maps the 32-byte token buffer
to the base64 hash string compared against the stored `session_token`
column. -/

structure UserRow where
  userId : Nat
  uuid : String
  username : String
  email : String
  password : String
  maxStations : Int
  isAdmin : Bool
  deletedAt : Option Int
deriving DecidableEq

structure SessionRow where
  userId : Nat
  sessionToken : String
  expiresAt : Int
  revokedAt : Option Int
deriving DecidableEq

structure DBState where
  users : List UserRow
  sessions : List SessionRow
  now : Int
deriving DecidableEq

/-- Whether one joined row satisfies the WHERE clause of the
`validate_session_token` query (src/utils/utils.c:130-145): token hash
equal, not expired, not revoked, user alive, and the admin/self scope
disjunction on `$2`. -/
def session_row_matches (db : DBState) (userId : Option String) (hashB64 : String)
    (s : SessionRow) : Bool :=
  s.sessionToken == hashB64 && decide (db.now < s.expiresAt) && s.revokedAt.isNone &&
    db.users.any (fun u =>
      u.userId == s.userId && u.deletedAt.isNone &&
        (match userId with
         | none => u.isAdmin
         | some uid => u.isAdmin || u.uuid == uid || u.username == uid))

/-- `validate_session_token` (src/utils/utils.c:106): NULL token rejected;
base64 decode of the token into the 32-byte buffer (uninitialised tail
`junk` when the decode yields fewer bytes); hash; lookup.  The answer is
the non-emptiness of the query result; a query-execution failure also
returns false (src/utils/utils.c:153-157), which the embedding covers by
the same `false`. -/
def validate_session_token (hashFn : List Nat → String) (db : DBState)
    (userId : Option String) (sessionToken : Option String) (junk : List Nat) : Bool :=
  match sessionToken with
  | none => false
  | some tok =>
    match sodium_base642bin KEY_ENTROPY tok with
    | none => false
    | some bytes =>
      let hashB64 := hashFn ((bytes ++ junk).take KEY_ENTROPY)
      db.sessions.any (session_row_matches db userId hashB64)

theorem session_row_matches_iff (db : DBState) (userId : Option String) (hashB64 : String)
    (s : SessionRow) :
    session_row_matches db userId hashB64 s = true ↔
      s.sessionToken = hashB64 ∧ db.now < s.expiresAt ∧ s.revokedAt = none ∧
        ∃ u ∈ db.users, u.userId = s.userId ∧ u.deletedAt = none ∧
          (match userId with
           | none => u.isAdmin = true
           | some uid => u.isAdmin = true ∨ u.uuid = uid ∨ u.username = uid) := by
  unfold session_row_matches
  cases userId <;>
    simp [List.any_eq_true, Option.isNone_iff_eq_none, and_assoc, or_assoc]

theorem validate_decode_none (hashFn : List Nat → String) (db : DBState)
    (userId : Option String) (tok : String) (junk : List Nat)
    (hdec : sodium_base642bin KEY_ENTROPY tok = none) :
    validate_session_token hashFn db userId (some tok) junk = false := by
  simp [validate_session_token, hdec]

theorem validate_decode_some (hashFn : List Nat → String) (db : DBState)
    (userId : Option String) (tok : String) (junk : List Nat) (bytes : List Nat)
    (hdec : sodium_base642bin KEY_ENTROPY tok = some bytes) :
    validate_session_token hashFn db userId (some tok) junk
      = db.sessions.any
          (session_row_matches db userId (hashFn ((bytes ++ junk).take KEY_ENTROPY))) := by
  simp [validate_session_token, hdec]

/-- C8, amended: `validate_session_token` always yields a boolean — and
yields `false` whenever the presented token is NULL, whenever it is not
base64 that sodium accepts into the 32-byte buffer (invalid characters,
more than 32 decoded bytes, a dangling character or non-zero leftover
bits), whenever no stored session carries the hash of the decoded (and,
for short decodes, junk-completed) token buffer, and whenever every
session carrying that hash is expired, revoked, or belongs to a
soft-deleted user.  Valid base64 decoding to fewer than 32 bytes is
accepted by the decoder, so for such tokens falsity is conditional on
the hash lookup, not unconditional. -/
theorem claim_C8_validation_false_cases (hashFn : List Nat → String) (db : DBState)
    (userId : Option String) (tok : String) (junk : List Nat) :
    validate_session_token hashFn db userId none junk = false ∧
      (sodium_base642bin KEY_ENTROPY tok = none →
        validate_session_token hashFn db userId (some tok) junk = false) ∧
      (∀ bytes, sodium_base642bin KEY_ENTROPY tok = some bytes →
        (∀ s ∈ db.sessions,
            s.sessionToken ≠ hashFn ((bytes ++ junk).take KEY_ENTROPY)) →
        validate_session_token hashFn db userId (some tok) junk = false) ∧
      (∀ bytes, sodium_base642bin KEY_ENTROPY tok = some bytes →
        (∀ s ∈ db.sessions,
            s.sessionToken = hashFn ((bytes ++ junk).take KEY_ENTROPY) →
            ¬ db.now < s.expiresAt ∨ s.revokedAt ≠ none ∨
              ∀ u ∈ db.users, u.userId = s.userId → u.deletedAt ≠ none) →
        validate_session_token hashFn db userId (some tok) junk = false) ∧
      (validate_session_token hashFn db userId (some tok) junk = true ∨
        validate_session_token hashFn db userId (some tok) junk = false) := by
  refine ⟨rfl, validate_decode_none hashFn db userId tok junk, ?_, ?_, ?_⟩
  · intro bytes hdec hno
    cases hres : validate_session_token hashFn db userId (some tok) junk
    · rfl
    · exfalso
      rw [validate_decode_some hashFn db userId tok junk bytes hdec,
        List.any_eq_true] at hres
      obtain ⟨s, hs, hm⟩ := hres
      exact hno s hs ((session_row_matches_iff db userId _ s).mp hm).1
  · intro bytes hdec hcond
    cases hres : validate_session_token hashFn db userId (some tok) junk
    · rfl
    · exfalso
      rw [validate_decode_some hashFn db userId tok junk bytes hdec,
        List.any_eq_true] at hres
      obtain ⟨s, hs, hm⟩ := hres
      obtain ⟨hh, hexp, hrev, u, hu, hid, hdel, _⟩ :=
        (session_row_matches_iff db userId _ s).mp hm
      rcases hcond s hs hh with hx | hx | hx
      · exact hx hexp
      · exact hx hrev
      · exact hx u hu hid hdel
  · cases validate_session_token hashFn db userId (some tok) junk
    · exact Or.inr rfl
    · exact Or.inl rfl

/-- A database with one live user `alice` and one session that is active
at `now` and stores the token hash `H`; used by the C8 counterexample. -/
def dbC8active : DBState :=
  { users := [{ userId := 1, uuid := "u-1", username := "alice", email := "a@x.io",
                password := "h", maxStations := 0, isAdmin := false, deletedAt := none }],
    sessions := [{ userId := 1, sessionToken := "H", expiresAt := 100, revokedAt := none }],
    now := 50 }

/-- C8, counterexample: the 8-character token `AAAAAAAA` is valid
URL-safe base64 but decodes to only 6 bytes — not exactly 32 — because
the code passes NULL for `bin_len` and sodium accepts any decode that
fits the buffer.  The claim asserts such a token validates to false
unconditionally; in fact the C hashes the partially uninitialised
32-byte buffer and runs the lookup, and when that buffer's hash matches
a stored active session the function returns true. -/
theorem claim_C8_counterexample :
    sodium_base642bin KEY_ENTROPY "AAAAAAAA" = some (List.replicate 6 0) ∧
      (List.replicate 6 0).length = 6 ∧
      validate_session_token (fun _ => "H") dbC8active (some "alice")
        (some "AAAAAAAA") [] = true := by
  refine ⟨by decide, by decide, by decide⟩

/-- A database with one admin user and one session that expired before
`now`; used by the C8 witness. -/
def dbC8 : DBState :=
  { users := [{ userId := 1, uuid := "u-1", username := "alice", email := "a@x.io",
                password := "h", maxStations := 0, isAdmin := true, deletedAt := none }],
    sessions := [{ userId := 1, sessionToken := "H", expiresAt := 10, revokedAt := none }],
    now := 50 }

/-- A 43-character URL-safe base64 token decoding to 32 zero bytes. -/
def tokC8 : String := "AAAAAAAAAAAAAAAAAAAAAAAAAAAAAAAAAAAAAAAAAAA"

/-- Witness for C8: the NULL token, a malformed token, a token whose
hash matches no session, and a token whose only hash-matching session is
expired all validate to false. -/
theorem claim_C8_validation_false_cases_witness :
    validate_session_token (fun _ => "H") dbC8 none none [] = false ∧
      validate_session_token (fun _ => "H") dbC8 none (some "!") [] = false ∧
      validate_session_token (fun _ => "X") dbC8 none (some tokC8) [] = false ∧
      validate_session_token (fun _ => "H") dbC8 none (some tokC8) [] = false :=
  ⟨(claim_C8_validation_false_cases (fun _ => "H") dbC8 none "!" []).1,
   (claim_C8_validation_false_cases (fun _ => "H") dbC8 none "!" []).2.1 (by decide),
   (claim_C8_validation_false_cases (fun _ => "X") dbC8 none tokC8 []).2.2.1
     (List.replicate 32 0) (by decide) (by decide),
   (claim_C8_validation_false_cases (fun _ => "H") dbC8 none tokC8 []).2.2.2.1
     (List.replicate 32 0) (by decide) (by decide)⟩

/-! ## Name/email validators (src/utils/utils.c:26 and 334)

`users_patch` validates its optional username and email with these; the
C loops check characters and length as they scan, which is equivalent to
the conjunctions below. -/

def NAME_SIZE : Nat := 30
def NAME_SIZE_MIN : Nat := 3

def isalnumChar (c : Char) : Bool :=
  (48 ≤ c.toNat && c.toNat ≤ 57) || (65 ≤ c.toNat && c.toNat ≤ 90) ||
    (97 ≤ c.toNat && c.toNat ≤ 122)

def isAlphaChar (c : Char) : Bool :=
  (65 ≤ c.toNat && c.toNat ≤ 90) || (97 ≤ c.toNat && c.toNat ≤ 122)

def validate_name (s : Option String) : Bool :=
  match s with
  | none => false
  | some str =>
    !str.data.isEmpty &&
      str.data.all (fun c => isalnumChar c || c == '-' || c == '_') &&
      decide (str.data.length ≤ NAME_SIZE) && decide (NAME_SIZE_MIN ≤ str.data.length)

def isLocalChar (c : Char) : Bool :=
  isalnumChar c || c == '.' || c == '_' || c == '-' || c == '+'

def isDomainChar (c : Char) : Bool :=
  isalnumChar c || c == '.' || c == '-'

/-- `validate_email`: first `@` not at position 0; a `.` after the `@`
with at least one character between them (`dot < at + 2` rejected) and
at least one after (`*(dot+1) == 0` rejected); charset checks on the
local part, the domain up to the last dot, and the TLD. -/
def validate_email (s : Option String) : Bool :=
  match s with
  | none => false
  | some str =>
    match str.data.findIdx? (fun c => c == '@') with
    | none => false
    | some ai =>
      if ai = 0 then false
      else
        let rest := str.data.drop (ai + 1)
        match rest.reverse.findIdx? (fun c => c == '.') with
        | none => false
        | some rj =>
          let di := rest.length - 1 - rj
          if di = 0 then false
          else if rj = 0 then false
          else
            (str.data.take ai).all isLocalChar &&
              (rest.take di).all isDomainChar &&
              (rest.drop (di + 1)).all isAlphaChar

/-! ## users_patch (src/core/weather.c:179) and claim C7 -/

def user_matches_ref (ref : String) (u : UserRow) : Bool :=
  u.uuid == ref || u.username == ref

/-- The COALESCE($n, col) column updates of the patch statement. -/
def users_patch_apply (u : UserRow) (username email : Option String)
    (maxStations : Option Int) (isAdmin : Option Bool) (password : Option String) : UserRow :=
  { u with
    username := username.getD u.username
    email := email.getD u.email
    maxStations := maxStations.getD u.maxStations
    isAdmin := isAdmin.getD u.isAdmin
    password := password.getD u.password }

/-- The session-revocation statement of `users_patch`
(src/core/weather.c:281-287): set `revoked_at = NOW()` on the unrevoked
sessions of the user found by re-resolving `$1` — against the users
table as it stands AFTER the patch statement ran. -/
def users_patch_revoke (db : DBState) (ref : String) : DBState :=
  match db.users.find? (user_matches_ref ref) with
  | none => db
  | some target =>
    { db with
      sessions := db.sessions.map (fun s =>
        if s.userId == target.userId && s.revokedAt.isNone then
          { s with revokedAt := some db.now }
        else s) }

/-- `users_patch`.  Boolean parameters abstract the outcomes the control
flow branches on: `authGiven` (`authData` and its token non-NULL),
`sessionOk` (`validate_session_token`), `passOk` (`validate_password`
when a password change is requested), `hashOk` (`crypto_pwhash_str`),
`adminOk` (`validate_admin_session_token`, gating `max_stations` and
`is_admin`), `updateOk`/`revokeOk` (libpq statement status), `jsonOk`
(`pgresult_to_json`); `newPassHash` is the freshly computed hash.  The
returned state reflects exactly the statements that executed. -/
def users_patch (db : DBState) (userId : Option String) (username email : Option String)
    (maxStations : Option Int) (isAdmin : Option Bool) (oldPass newPass : Option String)
    (authGiven sessionOk passOk hashOk adminOk updateOk jsonOk revokeOk : Bool)
    (newPassHash : String) : apiError_t × DBState :=
  if authGiven = false then (API_AUTH_ERROR, db)
  else if userId.isNone then (API_INVALID_PARAMS, db)
  else if username.isSome && !validate_name username then (API_INVALID_PARAMS, db)
  else if email.isSome && !validate_email email then (API_INVALID_PARAMS, db)
  else if sessionOk = false then (API_AUTH_ERROR, db)
  else if (oldPass.isSome || newPass.isSome) && !passOk then (API_AUTH_ERROR, db)
  else if (oldPass.isSome || newPass.isSome) && !hashOk then (API_MEMORY_ERROR, db)
  else
    let passParam := if oldPass.isSome || newPass.isSome then some newPassHash else none
    let msParam := if adminOk then maxStations else none
    let adParam := if adminOk then isAdmin else none
    let ref := userId.getD ""
    if updateOk = false then (API_DB_ERROR, db)
    else
      let matched := db.users.countP (user_matches_ref ref)
      let db1 : DBState :=
        { db with
          users := db.users.map (fun u =>
            if user_matches_ref ref u then
              users_patch_apply u username email msParam adParam passParam
            else u) }
      if matched = 0 then (API_NOT_FOUND, db1)
      else if jsonOk = false then (API_JSON_ERROR, db1)
      else if revokeOk = false then (API_DB_ERROR, db1)
      else (API_OK, users_patch_revoke db1 ref)

/-- The database of the C7 scenario: the user `alice` with one active
session. -/
def dbC7 : DBState :=
  { users := [{ userId := 1, uuid := "u-1", username := "alice", email := "a@x.io",
                password := "h", maxStations := 0, isAdmin := false, deletedAt := none }],
    sessions := [{ userId := 1, sessionToken := "H", expiresAt := 100, revokedAt := none }],
    now := 50 }

/-- The result of patching `alice` (referenced by username) to the new
username `bob`. -/
def dbC7patched : apiError_t × DBState :=
  users_patch dbC7 (some "alice") (some "bob") none none none none none
    true true true true true true true true "h"

/-- C7, behaviour at the failing input: patching user `alice` —
referenced by username — to the new username `bob` succeeds (`API_OK`),
yet the session that was active before the patch is still unrevoked
afterwards (`revoked_at` stays NULL), and validating that session's
token against the renamed user returns true: the revocation statement
re-resolves the old reference against the already-renamed users table
and finds no user. -/
theorem claim_C7_rename_defeats_revocation :
    dbC7patched.1 = API_OK ∧
      dbC7patched.2.sessions
        = [{ userId := 1, sessionToken := "H", expiresAt := 100, revokedAt := none }] ∧
      session_row_matches dbC7 (some "alice") "H"
        { userId := 1, sessionToken := "H", expiresAt := 100, revokedAt := none } = true ∧
      validate_session_token (fun _ => "H") dbC7patched.2 (some "bob") (some tokC8) [] = true := by
  refine ⟨by decide, by decide, by decide, by decide⟩

/-! ## validate_timestamp (src/utils/utils.c:322) and glibc strptime

`validate_timestamp` calls `strptime(ts, "%Y-%m-%dT%H:%M:%S", &tm)` and
accepts iff the parse succeeds and the returned pointer is the end of
the string.  glibc's `get_number` skips leading whitespace, requires at
least one digit, then consumes greedily — another digit is taken while
width remains and `val * 10 <= to` — and finally requires the value in
`[from, to]`.  The fields are `%Y` (0, 9999, 4), `%m` (1, 12, 2), `%d`
(1, 31, 2), `%H` (0, 23, 2), `%M` (0, 59, 2), `%S` (0, 61, 2); each
literal format character must match the input exactly. -/

def isSpaceChar (c : Char) : Bool :=
  c.toNat = 32 || (9 ≤ c.toNat && c.toNat ≤ 13)

def isDigitChar (c : Char) : Bool := 48 ≤ c.toNat && c.toNat ≤ 57

def digitVal (c : Char) : Nat := c.toNat - 48

def getNumberLoop (hi : Nat) : Nat → Nat → List Char → Nat × List Char
  | 0, val, cs => (val, cs)
  | _ + 1, val, [] => (val, [])
  | width + 1, val, c :: rest =>
    if isDigitChar c && decide (val * 10 ≤ hi) then
      getNumberLoop hi width (val * 10 + digitVal c) rest
    else (val, c :: rest)

def get_number (lo hi width : Nat) (cs : List Char) : Option (Nat × List Char) :=
  match cs.dropWhile isSpaceChar with
  | [] => none
  | c :: rest =>
    if isDigitChar c then
      let p := getNumberLoop hi (width - 1) (digitVal c) rest
      if lo ≤ p.1 ∧ p.1 ≤ hi then some p else none
    else none

def expectChar (c : Char) (cs : List Char) : Option (List Char) :=
  match cs with
  | [] => none
  | d :: rest => if d = c then some rest else none

/-- strptime with the fixed format `%Y-%m-%dT%H:%M:%S`: the remaining
input after the seconds field, when every conversion succeeds. -/
def strptime_YmdHMS (cs : List Char) : Option (List Char) :=
  (get_number 0 9999 4 cs).bind (fun p1 =>
  (expectChar '-' p1.2).bind (fun r2 =>
  (get_number 1 12 2 r2).bind (fun p2 =>
  (expectChar '-' p2.2).bind (fun r3 =>
  (get_number 1 31 2 r3).bind (fun p3 =>
  (expectChar 'T' p3.2).bind (fun r4 =>
  (get_number 0 23 2 r4).bind (fun p4 =>
  (expectChar ':' p4.2).bind (fun r5 =>
  (get_number 0 59 2 r5).bind (fun p5 =>
  (expectChar ':' p5.2).bind (fun r6 =>
  (get_number 0 61 2 r6).map (fun p6 => p6.2)))))))))))

/-- `validate_timestamp`: NULL rejected; otherwise strptime must succeed
and leave nothing unconsumed. -/
def validate_timestamp (s : Option String) : Bool :=
  match s with
  | none => false
  | some str =>
    match strptime_YmdHMS str.data with
    | none => false
    | some rest => rest.isEmpty

/-- The strict shape the claim asserts: exactly
`YYYY-MM-DDTHH:MM:SS` with two-digit zero-padded fields and a four-digit
year, and nothing trailing. -/
def strictTimestampShape (str : String) : Bool :=
  match str.data with
  | [y1, y2, y3, y4, s1, m1, m2, s2, d1, d2, s3, h1, h2, s4, n1, n2, s5, c1, c2] =>
    isDigitChar y1 && isDigitChar y2 && isDigitChar y3 && isDigitChar y4 &&
      s1 == '-' && isDigitChar m1 && isDigitChar m2 && s2 == '-' &&
      isDigitChar d1 && isDigitChar d2 && s3 == 'T' &&
      isDigitChar h1 && isDigitChar h2 && s4 == ':' &&
      isDigitChar n1 && isDigitChar n2 && s5 == ':' &&
      isDigitChar c1 && isDigitChar c2
  | _ => false

/-- C9, counterexample: `624-01-02T03:04:05` (three-digit year) is
accepted though it is not of the strict form, and `2024-00-02T03:04:05`
is of the strict syntactic form but rejected (month 0 out of range):
both directions of the claimed equivalence fail. -/
theorem claim_C9_counterexample :
    validate_timestamp (some "624-01-02T03:04:05") = true ∧
      strictTimestampShape "624-01-02T03:04:05" = false ∧
      strictTimestampShape "2024-00-02T03:04:05" = true ∧
      validate_timestamp (some "2024-00-02T03:04:05") = false := by
  refine ⟨by decide, by decide, by decide, by decide⟩

/-! ## Amended form of C9: what validate_timestamp actually accepts -/

def pad2 (n : Nat) : List Char := [Char.ofNat (48 + n / 10), Char.ofNat (48 + n % 10)]

def pad4 (n : Nat) : List Char :=
  [Char.ofNat (48 + n / 1000), Char.ofNat (48 + n / 100 % 10),
   Char.ofNat (48 + n / 10 % 10), Char.ofNat (48 + n % 10)]

/-- The zero-padded strict rendering `YYYY-MM-DDTHH:MM:SS`. -/
def renderTimestamp (y mo d h mi s : Nat) : String :=
  String.mk (pad4 y ++ '-' :: (pad2 mo ++ '-' :: (pad2 d ++ 'T' ::
    (pad2 h ++ ':' :: (pad2 mi ++ ':' :: (pad2 s ++ []))))))

theorem digitVal_char (k : Nat) (hk : k ≤ 9) : digitVal (Char.ofNat (48 + k)) = k := by
  interval_cases k <;> decide

theorem isDigit_digitChar (k : Nat) (hk : k ≤ 9) :
    isDigitChar (Char.ofNat (48 + k)) = true := by
  interval_cases k <;> decide

theorem not_space_digit (k : Nat) (hk : k ≤ 9) :
    isSpaceChar (Char.ofNat (48 + k)) = false := by
  interval_cases k <;> decide

theorem getNumberLoop_zero (hi val : Nat) (cs : List Char) :
    getNumberLoop hi 0 val cs = (val, cs) := rfl

theorem getNumberLoop_step (hi width val : Nat) (c : Char) (cs : List Char)
    (hd : isDigitChar c = true) (hle : val * 10 ≤ hi) :
    getNumberLoop hi (width + 1) val (c :: cs)
      = getNumberLoop hi width (val * 10 + digitVal c) cs := by
  have hcond : (isDigitChar c && decide (val * 10 ≤ hi)) = true := by
    rw [hd]
    simpa using hle
  show (if isDigitChar c && decide (val * 10 ≤ hi) then
      getNumberLoop hi width (val * 10 + digitVal c) cs
    else (val, c :: cs)) = getNumberLoop hi width (val * 10 + digitVal c) cs
  simp [hcond]

theorem get_number_cons (lo hi width : Nat) (c : Char) (cs : List Char)
    (hns : isSpaceChar c = false) (hd : isDigitChar c = true) :
    get_number lo hi width (c :: cs)
      = (if lo ≤ (getNumberLoop hi (width - 1) (digitVal c) cs).1 ∧
            (getNumberLoop hi (width - 1) (digitVal c) cs).1 ≤ hi
         then some (getNumberLoop hi (width - 1) (digitVal c) cs) else none) := by
  unfold get_number
  rw [List.dropWhile_cons, hns]
  simp [hd]

theorem get_number_pad2 (lo hi n : Nat) (hlo : lo ≤ n) (hhi : n ≤ hi) (h99 : n ≤ 99)
    (rest : List Char) :
    get_number lo hi 2 (pad2 n ++ rest) = some (n, rest) := by
  have h1 : n / 10 ≤ 9 := by omega
  have h2 : n % 10 ≤ 9 := by omega
  show get_number lo hi 2
      (Char.ofNat (48 + n / 10) :: Char.ofNat (48 + n % 10) :: rest) = some (n, rest)
  rw [get_number_cons lo hi 2 _ _ (not_space_digit _ h1) (isDigit_digitChar _ h1),
    digitVal_char _ h1]
  rw [show (2 : Nat) - 1 = 0 + 1 from rfl,
    getNumberLoop_step hi 0 (n / 10) _ rest (isDigit_digitChar _ h2)
      (by omega : n / 10 * 10 ≤ hi),
    digitVal_char _ h2, getNumberLoop_zero]
  have hn : n / 10 * 10 + n % 10 = n := by omega
  rw [hn, if_pos ⟨hlo, hhi⟩]

theorem get_number_pad4 (y : Nat) (hy : y ≤ 9999) (rest : List Char) :
    get_number 0 9999 4 (pad4 y ++ rest) = some (y, rest) := by
  have h1 : y / 1000 ≤ 9 := by omega
  have h2 : y / 100 % 10 ≤ 9 := by omega
  have h3 : y / 10 % 10 ≤ 9 := by omega
  have h4 : y % 10 ≤ 9 := by omega
  show get_number 0 9999 4
      (Char.ofNat (48 + y / 1000) :: Char.ofNat (48 + y / 100 % 10) ::
        Char.ofNat (48 + y / 10 % 10) :: Char.ofNat (48 + y % 10) :: rest) = some (y, rest)
  rw [get_number_cons 0 9999 4 _ _ (not_space_digit _ h1) (isDigit_digitChar _ h1),
    digitVal_char _ h1]
  rw [show (4 : Nat) - 1 = 2 + 1 from rfl,
    getNumberLoop_step 9999 2 (y / 1000) _ _ (isDigit_digitChar _ h2)
      (by omega : y / 1000 * 10 ≤ 9999),
    digitVal_char _ h2]
  have e1 : y / 1000 * 10 + y / 100 % 10 = y / 100 := by omega
  rw [e1, show (2 : Nat) = 1 + 1 from rfl,
    getNumberLoop_step 9999 1 (y / 100) _ _ (isDigit_digitChar _ h3)
      (by omega : y / 100 * 10 ≤ 9999),
    digitVal_char _ h3]
  have e2 : y / 100 * 10 + y / 10 % 10 = y / 10 := by omega
  rw [e2, show (1 : Nat) = 0 + 1 from rfl,
    getNumberLoop_step 9999 0 (y / 10) _ _ (isDigit_digitChar _ h4)
      (by omega : y / 10 * 10 ≤ 9999),
    digitVal_char _ h4, getNumberLoop_zero]
  have e3 : y / 10 * 10 + y % 10 = y := by omega
  rw [e3, if_pos ⟨Nat.zero_le y, hy⟩]

theorem expectChar_cons (c : Char) (cs : List Char) : expectChar c (c :: cs) = some cs := by
  show (if c = c then some cs else none) = some cs
  rw [if_pos rfl]

/-- C9, amended: `validate_timestamp` accepts `strptime`'s lenient
reading of `Y-M-DTH:M:S` with nothing trailing: every strictly rendered
timestamp whose fields are within `strptime`'s ranges (year ≤ 9999,
month 1–12, day 1–31, hour ≤ 23, minute ≤ 59, second ≤ 61) is accepted,
but zero-padding is not required (a three-digit year is also accepted),
an in-shape but out-of-range field is rejected, and trailing characters
are rejected. -/
theorem claim_C9_amended (y mo d h mi s : Nat) (hy : y ≤ 9999)
    (hmo1 : 1 ≤ mo) (hmo2 : mo ≤ 12) (hd1 : 1 ≤ d) (hd2 : d ≤ 31)
    (hh : h ≤ 23) (hmi : mi ≤ 59) (hs : s ≤ 61) :
    validate_timestamp (some (renderTimestamp y mo d h mi s)) = true ∧
      validate_timestamp (some "624-01-02T03:04:05") = true ∧
      validate_timestamp (some "2024-00-02T03:04:05") = false ∧
      validate_timestamp (some "2024-06-01T00:10:30Z") = false := by
  refine ⟨?_, by decide, by decide, by decide⟩
  show (match strptime_YmdHMS (renderTimestamp y mo d h mi s).data with
    | none => false
    | some rest => rest.isEmpty) = true
  have hdata : (renderTimestamp y mo d h mi s).data
      = pad4 y ++ '-' :: (pad2 mo ++ '-' :: (pad2 d ++ 'T' ::
          (pad2 h ++ ':' :: (pad2 mi ++ ':' :: (pad2 s ++ []))))) := rfl
  rw [hdata]
  have m1 := get_number_pad2 1 12 mo hmo1 hmo2 (by omega)
  have m2 := get_number_pad2 1 31 d hd1 hd2 (by omega)
  have m3 := get_number_pad2 0 23 h (Nat.zero_le h) hh (by omega)
  have m4 := get_number_pad2 0 59 mi (Nat.zero_le mi) hmi (by omega)
  have m5 := get_number_pad2 0 61 s (Nat.zero_le s) hs (by omega)
  have m5e : get_number 0 61 2 (pad2 s) = some (s, []) := by
    have h5 := m5 []
    rwa [List.append_nil] at h5
  simp [strptime_YmdHMS, get_number_pad4 y hy, m1, m2, m3, m4, m5e, expectChar_cons]

/-- Witness for the amended C9 theorem at the concrete timestamp
`2024-06-01T00:10:30`. -/
theorem claim_C9_amended_witness :
    validate_timestamp (some (renderTimestamp 2024 6 1 0 10 30)) = true ∧
      validate_timestamp (some "624-01-02T03:04:05") = true ∧
      validate_timestamp (some "2024-00-02T03:04:05") = false ∧
      validate_timestamp (some "2024-06-01T00:10:30Z") = false :=
  claim_C9_amended 2024 6 1 0 10 30 (by decide) (by decide) (by decide) (by decide)
    (by decide) (by decide) (by decide) (by decide)

/-- Witness for C5 at the empty bitmask and hour granularity. -/
theorem claim_C5_no_trailing_comma_witness :
    endsInComma (static_query_body 0 GRANULARITY_HOUR) = false ∧
      endsInComma (generic_query_body 0) = false :=
  claim_C5_no_trailing_comma 0 GRANULARITY_HOUR

/-- The identically-zero offset oracle, used by the C4 witness. -/
def offsetZero : String → Int → Int := fun _ _ => 0

/-- Witness for C4 at a concrete offset oracle, granularity and range. -/
theorem claim_C4_path_selection_witness :
    weather_data_list_path offsetZero GRANULARITY_HOUR 0 0 "UTC" = QueryPath.staticPath ↔
      (GRANULARITY_HOUR = GRANULARITY_DATA ∨
        ∀ k : Nat, (0 : Int) + k * dayMillis ≤ 0 →
          offsetZero "UTC" (0 + k * dayMillis)
            = offsetZero DEFAULT_TIMEZONE (0 + k * dayMillis)) :=
  claim_C4_path_selection offsetZero GRANULARITY_HOUR 0 0 "UTC"

/-- Witness for the amended C3 theorem at a concrete bitmask. -/
theorem claim_C3_amended_witness :
    static_query_body SUMMARY_AVG_TEMPERATURE GRANULARITY_HOUR
        = static_query_base
            ++ commaSeparated (selectedCols SUMMARY_AVG_TEMPERATURE GRANULARITY_HOUR) ∧
      selectedCols SUMMARY_STDDEV_TEMPERATURE GRANULARITY_HOUR = [] ∧
      selectedCols SUMMARY_STDDEV_HUMIDITY GRANULARITY_HOUR = [] :=
  ⟨claim_C3_amended.1 SUMMARY_AVG_TEMPERATURE GRANULARITY_HOUR,
   claim_C3_amended.2.1, claim_C3_amended.2.2⟩

end PicoWeather
